import Mathlib

/-!
Shallow embedding of `be/src/exec/es_predicate.cpp` (Doris ES predicate
pushdown translator) and proofs about `EsPredicate::build_disjuncts_list`.

The translator walks one conjunct expression tree and appends normalized
predicates to a caller-supplied vector, returning a success flag.  We model
the vector passed by reference as explicit state passing: the Lean function
returns the pair (success flag, final vector contents).  The four branch
bodies of the C++ function are split into named helpers for the proofs;
`build_disjuncts_list` dispatches exactly as the source does.
-/

/-- Expression node kinds (`TExprNodeType`).  Only the constructors the
translator inspects are distinguished; `CAST_EXPR` stands for a cast wrapper
node, literal kinds and `OTHER_EXPR` stand for everything else. -/
inductive TExprNodeType where
  | SLOT_REF
  | BINARY_PRED
  | IN_PRED
  | COMPOUND_PRED
  | FUNCTION_CALL
  | CAST_EXPR
  | INT_LITERAL
  | STRING_LITERAL
  | OTHER_EXPR
  deriving DecidableEq, Repr

/-- Operator opcodes (`TExprOpcode`).  The translator only tests for
`COMPOUND_OR`; comparison opcodes are carried verbatim. -/
inductive TExprOpcode where
  | INVALID_OPCODE
  | LT
  | LE
  | GT
  | GE
  | EQ
  | NE
  | COMPOUND_AND
  | COMPOUND_OR
  | COMPOUND_NOT
  deriving DecidableEq, Repr

/-- Column primitive type tags (`PrimitiveType`). -/
inductive PrimitiveType where
  | INVALID_TYPE
  | TYPE_BOOLEAN
  | TYPE_TINYINT
  | TYPE_INT
  | TYPE_BIGINT
  | TYPE_DOUBLE
  | TYPE_DATE
  | TYPE_VARCHAR
  | TYPE_CHAR
  | TYPE_HLL
  deriving DecidableEq, Repr

/-- Type descriptor attached to expressions and slots (`TypeDescriptor`);
the translator only reads the primitive type tag. -/
structure TypeDescriptor where
  type : PrimitiveType
  deriving DecidableEq, Repr

/-- Modelled from the spec: `TypeDescriptor::is_string_type` is declared
outside this repository snapshot.  The spec describes a "string family"
of mutually compatible textual subtypes; varchar, char and hll are the
textual variants. -/
def TypeDescriptor.is_string_type (t : TypeDescriptor) : Bool :=
  t.type = .TYPE_VARCHAR ∨ t.type = .TYPE_CHAR ∨ t.type = .TYPE_HLL

/-- Slot descriptor: column id, column name and declared column type. -/
structure SlotDescriptor where
  id : Nat
  col_name : String
  typ : TypeDescriptor
  deriving DecidableEq, Repr

/-- Tuple descriptor: the set of slots visible to the current tuple shape. -/
structure TupleDescriptor where
  slots : List SlotDescriptor
  deriving DecidableEq, Repr

/-- Source expression node.  One constructor carrying every attribute the
translator reads: node type, ordered children, opcode, type descriptor,
function name (`fn().name.function_name`), the in-predicate is-not-in
marker, and the column ids reported by `get_slot_ids`. -/
inductive Expr where
  | mk : TExprNodeType → List Expr → TExprOpcode → TypeDescriptor →
         String → Bool → List Nat → Expr

/-- The node kind (`Expr::node_type`). -/
def Expr.node_type : Expr → TExprNodeType
  | .mk nt _ _ _ _ _ _ => nt

/-- The ordered children (`Expr::children`). -/
def Expr.children : Expr → List Expr
  | .mk _ ch _ _ _ _ _ => ch

/-- The opcode (`Expr::op`). -/
def Expr.op : Expr → TExprOpcode
  | .mk _ _ o _ _ _ _ => o

/-- The expression type descriptor (`Expr::type`). -/
def Expr.typ : Expr → TypeDescriptor
  | .mk _ _ _ t _ _ _ => t

/-- The called function name (`fn().name.function_name`). -/
def Expr.fn_name : Expr → String
  | .mk _ _ _ _ f _ _ => f

/-- The `InPredicate::is_not_in` marker. -/
def Expr.is_not_in : Expr → Bool
  | .mk _ _ _ _ _ b _ => b

/-- The column ids collected by `SlotRef::get_slot_ids`. -/
def Expr.slot_ids : Expr → List Nat
  | .mk _ _ _ _ _ _ s => s

/-- Normalized literal (`ExtLiteral`): the originating node type tag plus
the opaque value returned by the evaluation context.  The value type `V`
is a parameter because the translator never interprets the value. -/
structure ExtLiteral (V : Type) where
  node_type : TExprNodeType
  value : V
  deriving DecidableEq, Repr

/-- Column descriptor (`ExtColumnDesc`); the translator only builds the
empty list of these. -/
structure ExtColumnDesc where
  name : String
  typ : TypeDescriptor
  deriving DecidableEq, Repr

/-- Normalized predicate (`ExtPredicate` hierarchy) as a closed sum:
`ExtBinaryPredicate`, `ExtInPredicate` and `ExtFunction`. -/
inductive ExtPredicate (V : Type) where
  | ExtBinaryPredicate : TExprNodeType → String → TypeDescriptor →
      TExprOpcode → ExtLiteral V → ExtPredicate V
  | ExtInPredicate : TExprNodeType → Bool → String → TypeDescriptor →
      List (ExtLiteral V) → ExtPredicate V
  | ExtFunction : TExprNodeType → String → List ExtColumnDesc →
      List (ExtLiteral V) → ExtPredicate V
  deriving DecidableEq, Repr

/-- Modelled from the spec: the declaration of `ExtInPredicate` lives in
`es_predicate.h`, which is not part of this snapshot.  The spec gives the
Membership predicate a negation flag, but the four-argument constructor
used at the call site receives no negation value, so the flag keeps its
default value `false`. -/
def mkExtInPredicate (V : Type) (nt : TExprNodeType) (col : String)
    (t : TypeDescriptor) (values : List (ExtLiteral V)) : ExtPredicate V :=
  .ExtInPredicate nt false col t values

/-- The negation flag carried by a normalized predicate (`false` for the
shapes that have none). -/
def ExtPredicate.negated {V : Type} : ExtPredicate V → Bool
  | .ExtInPredicate _ b _ _ _ => b
  | _ => false

/-- `EsPredicate::is_match_func`: true iff the node is a function call whose
function name is exactly "esquery". -/
def is_match_func (e : Expr) : Bool :=
  e.node_type = .FUNCTION_CALL ∧ e.fn_name = "esquery"

/-- Modelled from the spec: `Expr::type_without_cast` is declared outside
this snapshot.  Per the spec it strips one leading type-cast wrapper,
yielding the node type of the cast input; otherwise the node type itself. -/
def type_without_cast (e : Expr) : TExprNodeType :=
  match e.node_type, e.children with
  | .CAST_EXPR, c :: _ => c.node_type
  | t, _ => t

/-- `EsPredicate::get_slot_desc`: take the first collected slot id and scan
the tuple descriptor slots for the first slot with that id; `none` when the
id is absent (the source also has no behaviour for an empty id list, which
we model as `none`). -/
def get_slot_desc (td : TupleDescriptor) (slotRef : Expr) : Option SlotDescriptor :=
  match slotRef.slot_ids with
  | [] => none
  | sid :: _ => td.slots.find? (fun s => s.id = sid)

/-- The per-value loop of the IN branch (lines 144-161): for each value
child check type compatibility against the type of child 0 — string-family
slot requires string-family values, otherwise the exact tags must agree —
and materialize each value as a normalized literal, in source order.
`none` models returning `false` from inside the loop. -/
def collect_in_values {V : Type} (ev : Expr → V) (t0 : TypeDescriptor) :
    List Expr → Option (List (ExtLiteral V))
  | [] => some []
  | ci :: rest =>
    if t0.is_string_type then
      if ci.typ.is_string_type then
        match collect_in_values ev t0 rest with
        | none => none
        | some ls => some (⟨ci.node_type, ev ci⟩ :: ls)
      else none
    else
      if ci.typ.type = t0.type then
        match collect_in_values ev t0 rest with
        | none => none
        | some ls => some (⟨ci.node_type, ev ci⟩ :: ls)
      else none

/-- Lines 67-107, the `BINARY_PRED` branch: require exactly two children;
take the first `SLOT_REF` child (first child preferred) as the slot and the
other child as the operand; fail when neither child is a slot reference or
the slot does not resolve; otherwise evaluate the operand and append one
`ExtBinaryPredicate` with the opcode taken verbatim from the node. -/
def build_binary_pred {V : Type} (ev : Expr → V) (td : TupleDescriptor)
    (ch : List Expr) (op : TExprOpcode) (ds : List (ExtPredicate V)) :
    Bool × List (ExtPredicate V) :=
  match ch with
  | [c0, c1] =>
    if c0.node_type = .SLOT_REF then
      match get_slot_desc td c0 with
      | none => (false, ds)
      | some sd =>
        (true, ds ++ [.ExtBinaryPredicate .BINARY_PRED sd.col_name sd.typ op
          ⟨c1.node_type, ev c1⟩])
    else if c1.node_type = .SLOT_REF then
      match get_slot_desc td c1 with
      | none => (false, ds)
      | some sd =>
        (true, ds ++ [.ExtBinaryPredicate .BINARY_PRED sd.col_name sd.typ op
          ⟨c0.node_type, ev c0⟩])
    else (false, ds)
  | _ => (false, ds)

/-- Lines 109-127, the `esquery` passthrough branch: evaluate the second
child (the source indexes it unchecked; a missing second child is modelled
as failure with the vector untouched) and append one `ExtFunction` with the
function name, an empty column list and the single literal. -/
def build_es_func {V : Type} (ev : Expr → V) (ch : List Expr) (fn : String)
    (ds : List (ExtPredicate V)) : Bool × List (ExtPredicate V) :=
  match ch with
  | _ :: c1 :: _ =>
    (true, ds ++ [.ExtFunction .FUNCTION_CALL fn [] [⟨c1.node_type, ev c1⟩]])
  | _ => (false, ds)

/-- Lines 129-172, the `IN_PRED` branch: the first child must be a slot
reference after de-cast and must resolve; the value children must pass the
type checks of `collect_in_values`; on success append one predicate through
the four-argument `ExtInPredicate` constructor.  The thrift struct filled
with `is_not_in` on lines 130-133 is a dead local in the source and has no
counterpart here. -/
def build_in_pred {V : Type} (ev : Expr → V) (td : TupleDescriptor)
    (ch : List Expr) (ds : List (ExtPredicate V)) : Bool × List (ExtPredicate V) :=
  match ch with
  | c0 :: vs =>
    if type_without_cast c0 ≠ .SLOT_REF then (false, ds)
    else
      match get_slot_desc td c0 with
      | none => (false, ds)
      | some sd =>
        match collect_in_values ev c0.typ vs with
        | none => (false, ds)
        | some lits =>
          (true, ds ++ [mkExtInPredicate V .IN_PRED sd.col_name sd.typ lits])
  | [] => (false, ds)

/-- `EsPredicate::build_disjuncts_list(Expr*, vector<ExtPredicate>&)`.
The C++ function returns a bool and appends to the vector passed by
reference; we return the pair (flag, final vector).  `ev` stands for the
external `ExprContext::get_value` evaluation service, `td` for the tuple
descriptor used by `get_slot_desc`.  Dispatch order and conditions follow
the source: `BINARY_PRED`, then `is_match_func`, then `IN_PRED`, then
`COMPOUND_PRED` (OR only, recursing left then right into the same vector),
else failure. -/
def build_disjuncts_list {V : Type} (ev : Expr → V) (td : TupleDescriptor) :
    Expr → List (ExtPredicate V) → Bool × List (ExtPredicate V)
  | e@(.mk nt ch op _ fn _ _), ds =>
    if nt = .BINARY_PRED then build_binary_pred ev td ch op ds
    else if is_match_func e then build_es_func ev ch fn ds
    else if nt = .IN_PRED then build_in_pred ev td ch ds
    else if nt = .COMPOUND_PRED then
      if op ≠ .COMPOUND_OR then (false, ds)
      else
        match ch with
        | l :: r :: _ =>
          match build_disjuncts_list ev td l ds with
          | (false, ds1) => (false, ds1)
          | (true, ds1) => build_disjuncts_list ev td r ds1
        | _ => (false, ds)
    else (false, ds)

/-- Derived characterization of the per-value type check of the IN branch:
string-family first-child type requires string-family values, otherwise the
exact tags of all values must equal the first-child tag. -/
def in_values_compat (t0 : TypeDescriptor) : List Expr → Bool
  | [] => true
  | ci :: rest =>
    (if t0.is_string_type then ci.typ.is_string_type
      else ci.typ.type = t0.type) && in_values_compat t0 rest

/-- Test tuple descriptor: integer column `a` with id 1 and varchar column
`s` with id 2. -/
def tdAB : TupleDescriptor :=
  ⟨[⟨1, "a", ⟨.TYPE_INT⟩⟩, ⟨2, "s", ⟨.TYPE_VARCHAR⟩⟩]⟩

/-- Test evaluation context: reads the value out of the id list carried by
the node, standing for the external constant-folding service. -/
def evHead : Expr → Nat := fun e => e.slot_ids.headD 0

/-- Slot reference to column `a`. -/
def slotA : Expr := .mk .SLOT_REF [] .INVALID_OPCODE ⟨.TYPE_INT⟩ "" false [1]

/-- Slot reference to column `s`. -/
def slotS : Expr := .mk .SLOT_REF [] .INVALID_OPCODE ⟨.TYPE_VARCHAR⟩ "" false [2]

/-- Integer literal node evaluating to `n`. -/
def intLit (n : Nat) : Expr :=
  .mk .INT_LITERAL [] .INVALID_OPCODE ⟨.TYPE_INT⟩ "" false [n]

/-- Varchar string literal node. -/
def strLitV : Expr :=
  .mk .STRING_LITERAL [] .INVALID_OPCODE ⟨.TYPE_VARCHAR⟩ "" false [9]

/-- Char string literal node (a string-family subtype distinct from
varchar). -/
def charLit : Expr :=
  .mk .STRING_LITERAL [] .INVALID_OPCODE ⟨.TYPE_CHAR⟩ "" false [7]

/-- The comparison `a > 5`. -/
def binGT : Expr :=
  .mk .BINARY_PRED [slotA, intLit 5] .GT ⟨.TYPE_BOOLEAN⟩ "" false []

/-- The comparison `a < 1`. -/
def binLT : Expr :=
  .mk .BINARY_PRED [slotA, intLit 1] .LT ⟨.TYPE_BOOLEAN⟩ "" false []

/-- A binary comparison whose two children are both slot references. -/
def bothSlots : Expr :=
  .mk .BINARY_PRED [slotA, slotS] .GT ⟨.TYPE_BOOLEAN⟩ "" false []

/-- The membership test `a NOT IN (3)`: the is-not-in marker is set. -/
def notInExpr : Expr :=
  .mk .IN_PRED [slotA, intLit 3] .INVALID_OPCODE ⟨.TYPE_BOOLEAN⟩ "" true []

/-- A slot reference whose expression type tag (varchar) differs from the
declared type of the slot it resolves to (column `a`, integer). -/
def slotMis : Expr := .mk .SLOT_REF [] .INVALID_OPCODE ⟨.TYPE_VARCHAR⟩ "" false [1]

/-- Membership test whose first child is `slotMis` and whose value child is
a char literal. -/
def inMis : Expr :=
  .mk .IN_PRED [slotMis, charLit] .INVALID_OPCODE ⟨.TYPE_BOOLEAN⟩ "" false []

/-- The membership test `s IN (char literal)`: string-family slot with a
value of a different string-family subtype. -/
def inStr : Expr :=
  .mk .IN_PRED [slotS, charLit] .INVALID_OPCODE ⟨.TYPE_BOOLEAN⟩ "" false []

/-- The disjunction `a > 5 OR a < 1`. -/
def orExpr : Expr :=
  .mk .COMPOUND_PRED [binGT, binLT] .COMPOUND_OR ⟨.TYPE_BOOLEAN⟩ "" false []

/-- The conjunction `a > 5 AND a < 1`. -/
def andExpr : Expr :=
  .mk .COMPOUND_PRED [binGT, binLT] .COMPOUND_AND ⟨.TYPE_BOOLEAN⟩ "" false []

/-- A disjunction whose left branch is representable and whose right branch
(a bare literal) is not. -/
def orBad : Expr :=
  .mk .COMPOUND_PRED [binGT, intLit 9] .COMPOUND_OR ⟨.TYPE_BOOLEAN⟩ "" false []

/-- The passthrough call `esquery(a, <json>)`. -/
def esqExpr : Expr :=
  .mk .FUNCTION_CALL [slotA, strLitV] .INVALID_OPCODE ⟨.TYPE_BOOLEAN⟩ "esquery" false []

/-- The comparison `5 > a` with the slot reference as the second child. -/
def binRev : Expr :=
  .mk .BINARY_PRED [intLit 5, slotA] .GT ⟨.TYPE_BOOLEAN⟩ "" false []

/-- A comparison between the varchar column `s` and an integer literal:
slot type and operand type disagree. -/
def binMix : Expr :=
  .mk .BINARY_PRED [slotS, intLit 5] .EQ ⟨.TYPE_BOOLEAN⟩ "" false []

/-- The normalized form of `a > 5` under `evHead` and `tdAB`. -/
def pGT : ExtPredicate Nat :=
  .ExtBinaryPredicate .BINARY_PRED "a" ⟨.TYPE_INT⟩ .GT ⟨.INT_LITERAL, 5⟩

/-- The normalized form of `a < 1` under `evHead` and `tdAB`. -/
def pLT : ExtPredicate Nat :=
  .ExtBinaryPredicate .BINARY_PRED "a" ⟨.TYPE_INT⟩ .LT ⟨.INT_LITERAL, 1⟩

@[simp] theorem Expr.node_type_mk (nt : TExprNodeType) (ch : List Expr)
    (op : TExprOpcode) (t : TypeDescriptor) (fn : String) (nin : Bool)
    (sids : List Nat) : (Expr.mk nt ch op t fn nin sids).node_type = nt := rfl

@[simp] theorem Expr.children_mk (nt : TExprNodeType) (ch : List Expr)
    (op : TExprOpcode) (t : TypeDescriptor) (fn : String) (nin : Bool)
    (sids : List Nat) : (Expr.mk nt ch op t fn nin sids).children = ch := rfl

@[simp] theorem Expr.op_mk (nt : TExprNodeType) (ch : List Expr)
    (op : TExprOpcode) (t : TypeDescriptor) (fn : String) (nin : Bool)
    (sids : List Nat) : (Expr.mk nt ch op t fn nin sids).op = op := rfl

@[simp] theorem Expr.typ_mk (nt : TExprNodeType) (ch : List Expr)
    (op : TExprOpcode) (t : TypeDescriptor) (fn : String) (nin : Bool)
    (sids : List Nat) : (Expr.mk nt ch op t fn nin sids).typ = t := rfl

@[simp] theorem Expr.fn_name_mk (nt : TExprNodeType) (ch : List Expr)
    (op : TExprOpcode) (t : TypeDescriptor) (fn : String) (nin : Bool)
    (sids : List Nat) : (Expr.mk nt ch op t fn nin sids).fn_name = fn := rfl

@[simp] theorem Expr.is_not_in_mk (nt : TExprNodeType) (ch : List Expr)
    (op : TExprOpcode) (t : TypeDescriptor) (fn : String) (nin : Bool)
    (sids : List Nat) : (Expr.mk nt ch op t fn nin sids).is_not_in = nin := rfl

@[simp] theorem Expr.slot_ids_mk (nt : TExprNodeType) (ch : List Expr)
    (op : TExprOpcode) (t : TypeDescriptor) (fn : String) (nin : Bool)
    (sids : List Nat) : (Expr.mk nt ch op t fn nin sids).slot_ids = sids := rfl

theorem build_dispatch_binary {V : Type} (ev : Expr → V) (td : TupleDescriptor)
    (ch : List Expr) (op : TExprOpcode) (t : TypeDescriptor) (fn : String)
    (nin : Bool) (sids : List Nat) (ds : List (ExtPredicate V)) :
    build_disjuncts_list ev td (.mk .BINARY_PRED ch op t fn nin sids) ds =
      build_binary_pred ev td ch op ds := by
  rw [build_disjuncts_list.eq_def]
  simp

theorem build_dispatch_func {V : Type} (ev : Expr → V) (td : TupleDescriptor)
    (ch : List Expr) (op : TExprOpcode) (t : TypeDescriptor) (fn : String)
    (nin : Bool) (sids : List Nat) (ds : List (ExtPredicate V)) :
    build_disjuncts_list ev td (.mk .FUNCTION_CALL ch op t fn nin sids) ds =
      (if fn = "esquery" then build_es_func ev ch fn ds else (false, ds)) := by
  rw [build_disjuncts_list.eq_def]
  by_cases hf : fn = "esquery"
  · simp [is_match_func, hf]
  · simp [is_match_func, hf]

theorem build_dispatch_in {V : Type} (ev : Expr → V) (td : TupleDescriptor)
    (ch : List Expr) (op : TExprOpcode) (t : TypeDescriptor) (fn : String)
    (nin : Bool) (sids : List Nat) (ds : List (ExtPredicate V)) :
    build_disjuncts_list ev td (.mk .IN_PRED ch op t fn nin sids) ds =
      build_in_pred ev td ch ds := by
  rw [build_disjuncts_list.eq_def]
  simp [is_match_func]

theorem build_dispatch_compound_or {V : Type} (ev : Expr → V)
    (td : TupleDescriptor) (l r : Expr) (rest : List Expr) (t : TypeDescriptor)
    (fn : String) (nin : Bool) (sids : List Nat) (ds : List (ExtPredicate V)) :
    build_disjuncts_list ev td
        (.mk .COMPOUND_PRED (l :: r :: rest) .COMPOUND_OR t fn nin sids) ds =
      (match build_disjuncts_list ev td l ds with
        | (false, ds1) => (false, ds1)
        | (true, ds1) => build_disjuncts_list ev td r ds1) := by
  rw [build_disjuncts_list.eq_def]
  simp [is_match_func]

theorem build_dispatch_compound_notor {V : Type} (ev : Expr → V)
    (td : TupleDescriptor) (ch : List Expr) (op : TExprOpcode)
    (t : TypeDescriptor) (fn : String) (nin : Bool) (sids : List Nat)
    (ds : List (ExtPredicate V)) (ho : op ≠ .COMPOUND_OR) :
    build_disjuncts_list ev td (.mk .COMPOUND_PRED ch op t fn nin sids) ds =
      (false, ds) := by
  rw [build_disjuncts_list.eq_def]
  simp [is_match_func, ho]

theorem build_dispatch_other {V : Type} (ev : Expr → V) (td : TupleDescriptor)
    (nt : TExprNodeType) (ch : List Expr) (op : TExprOpcode)
    (t : TypeDescriptor) (fn : String) (nin : Bool) (sids : List Nat)
    (ds : List (ExtPredicate V)) (hb : nt ≠ .BINARY_PRED)
    (hm : ¬(nt = .FUNCTION_CALL ∧ fn = "esquery")) (hi : nt ≠ .IN_PRED)
    (hc : nt ≠ .COMPOUND_PRED) :
    build_disjuncts_list ev td (.mk nt ch op t fn nin sids) ds = (false, ds) := by
  rw [build_disjuncts_list.eq_def]
  simp [is_match_func, hb, hm, hi, hc]

theorem build_binary_left {V : Type} (ev : Expr → V) (td : TupleDescriptor)
    (c0 c1 : Expr) (op : TExprOpcode) (sd : SlotDescriptor)
    (ds : List (ExtPredicate V))
    (h0 : c0.node_type = .SLOT_REF) (hsd : get_slot_desc td c0 = some sd) :
    build_binary_pred ev td [c0, c1] op ds =
      (true, ds ++ [.ExtBinaryPredicate .BINARY_PRED sd.col_name sd.typ op
        ⟨c1.node_type, ev c1⟩]) := by
  simp [build_binary_pred, h0, hsd]

theorem build_binary_right {V : Type} (ev : Expr → V) (td : TupleDescriptor)
    (c0 c1 : Expr) (op : TExprOpcode) (sd : SlotDescriptor)
    (ds : List (ExtPredicate V))
    (h0 : c0.node_type ≠ .SLOT_REF) (h1 : c1.node_type = .SLOT_REF)
    (hsd : get_slot_desc td c1 = some sd) :
    build_binary_pred ev td [c0, c1] op ds =
      (true, ds ++ [.ExtBinaryPredicate .BINARY_PRED sd.col_name sd.typ op
        ⟨c0.node_type, ev c0⟩]) := by
  simp [build_binary_pred, h0, h1, hsd]

theorem build_binary_noslot {V : Type} (ev : Expr → V) (td : TupleDescriptor)
    (c0 c1 : Expr) (op : TExprOpcode) (ds : List (ExtPredicate V))
    (h0 : c0.node_type ≠ .SLOT_REF) (h1 : c1.node_type ≠ .SLOT_REF) :
    build_binary_pred ev td [c0, c1] op ds = (false, ds) := by
  simp [build_binary_pred, h0, h1]

theorem collect_in_values_eq {V : Type} (ev : Expr → V) (t0 : TypeDescriptor)
    (vs : List Expr) :
    collect_in_values ev t0 vs =
      (if in_values_compat t0 vs then
        some (vs.map fun v => (⟨v.node_type, ev v⟩ : ExtLiteral V)) else none) := by
  induction vs with
  | nil => simp [collect_in_values, in_values_compat]
  | cons ci rest ih =>
    by_cases hs : t0.is_string_type
    · by_cases hc : ci.typ.is_string_type
      · cases hr : in_values_compat t0 rest with
        | false => simp [collect_in_values, in_values_compat, hs, hc, ih, hr]
        | true => simp [collect_in_values, in_values_compat, hs, hc, ih, hr]
      · simp [collect_in_values, in_values_compat, hs, hc]
    · by_cases hc : ci.typ.type = t0.type
      · cases hr : in_values_compat t0 rest with
        | false => simp [collect_in_values, in_values_compat, hs, hc, ih, hr]
        | true => simp [collect_in_values, in_values_compat, hs, hc, ih, hr]
      · simp [collect_in_values, in_values_compat, hs, hc]

theorem build_in_branch {V : Type} (ev : Expr → V) (td : TupleDescriptor)
    (c0 : Expr) (vs : List Expr) (sd : SlotDescriptor)
    (ds : List (ExtPredicate V))
    (h0 : type_without_cast c0 = .SLOT_REF) (hsd : get_slot_desc td c0 = some sd) :
    build_in_pred ev td (c0 :: vs) ds =
      (match collect_in_values ev c0.typ vs with
        | none => (false, ds)
        | some lits =>
          (true, ds ++ [mkExtInPredicate V .IN_PRED sd.col_name sd.typ lits])) := by
  simp [build_in_pred, h0, hsd]

theorem build_dispatch_compound_nil {V : Type} (ev : Expr → V)
    (td : TupleDescriptor) (t : TypeDescriptor) (fn : String) (nin : Bool)
    (sids : List Nat) (ds : List (ExtPredicate V)) :
    build_disjuncts_list ev td
        (.mk .COMPOUND_PRED [] .COMPOUND_OR t fn nin sids) ds = (false, ds) := by
  rw [build_disjuncts_list.eq_def]
  simp [is_match_func]

theorem build_dispatch_compound_one {V : Type} (ev : Expr → V)
    (td : TupleDescriptor) (l : Expr) (t : TypeDescriptor) (fn : String)
    (nin : Bool) (sids : List Nat) (ds : List (ExtPredicate V)) :
    build_disjuncts_list ev td
        (.mk .COMPOUND_PRED [l] .COMPOUND_OR t fn nin sids) ds = (false, ds) := by
  rw [build_disjuncts_list.eq_def]
  simp [is_match_func]

theorem build_binary_prepend {V : Type} (ev : Expr → V) (td : TupleDescriptor)
    (ch : List Expr) (op : TExprOpcode) (ds : List (ExtPredicate V)) :
    build_binary_pred ev td ch op ds =
      ((build_binary_pred ev td ch op []).1,
        ds ++ (build_binary_pred ev td ch op []).2) := by
  rcases ch with _ | ⟨c0, _ | ⟨c1, _ | ⟨c2, rest⟩⟩⟩
  · simp [build_binary_pred]
  · simp [build_binary_pred]
  · by_cases h0 : c0.node_type = .SLOT_REF
    · cases hsd : get_slot_desc td c0 with
      | none => simp [build_binary_pred, h0, hsd]
      | some sd => simp [build_binary_pred, h0, hsd]
    · by_cases h1 : c1.node_type = .SLOT_REF
      · cases hsd : get_slot_desc td c1 with
        | none => simp [build_binary_pred, h0, h1, hsd]
        | some sd => simp [build_binary_pred, h0, h1, hsd]
      · simp [build_binary_pred, h0, h1]
  · simp [build_binary_pred]

theorem build_es_prepend {V : Type} (ev : Expr → V) (ch : List Expr)
    (fn : String) (ds : List (ExtPredicate V)) :
    build_es_func ev ch fn ds =
      ((build_es_func ev ch fn []).1, ds ++ (build_es_func ev ch fn []).2) := by
  rcases ch with _ | ⟨c0, _ | ⟨c1, rest⟩⟩
  · simp [build_es_func]
  · simp [build_es_func]
  · simp [build_es_func]

theorem build_in_prepend {V : Type} (ev : Expr → V) (td : TupleDescriptor)
    (ch : List Expr) (ds : List (ExtPredicate V)) :
    build_in_pred ev td ch ds =
      ((build_in_pred ev td ch []).1, ds ++ (build_in_pred ev td ch []).2) := by
  rcases ch with _ | ⟨c0, vs⟩
  · simp [build_in_pred]
  · by_cases h0 : type_without_cast c0 = .SLOT_REF
    · cases hsd : get_slot_desc td c0 with
      | none => simp [build_in_pred, h0, hsd]
      | some sd =>
        cases hcv : collect_in_values ev c0.typ vs with
        | none => simp [build_in_pred, h0, hsd, hcv]
        | some lits => simp [build_in_pred, h0, hsd, hcv]
    · simp [build_in_pred, h0]

theorem build_prepend_aux {V : Type} (ev : Expr → V) (td : TupleDescriptor) :
    ∀ (n : Nat) (e : Expr), sizeOf e < n →
      ∀ ds : List (ExtPredicate V),
        build_disjuncts_list ev td e ds =
          ((build_disjuncts_list ev td e []).1,
            ds ++ (build_disjuncts_list ev td e []).2) := by
  intro n
  induction n with
  | zero => intro e he; exact absurd he (Nat.not_lt_zero _)
  | succ n ih =>
    intro e he ds
    cases e with
    | mk nt ch op t fn nin sids =>
      by_cases hb : nt = .BINARY_PRED
      · subst hb
        rw [build_dispatch_binary, build_dispatch_binary]
        exact build_binary_prepend ev td ch op ds
      · by_cases hfc : nt = .FUNCTION_CALL
        · subst hfc
          rw [build_dispatch_func, build_dispatch_func]
          by_cases hf : fn = "esquery"
          · simp only [hf, if_pos]
            exact build_es_prepend ev ch "esquery" ds
          · simp [hf]
        · by_cases hi : nt = .IN_PRED
          · subst hi
            rw [build_dispatch_in, build_dispatch_in]
            exact build_in_prepend ev td ch ds
          · by_cases hc : nt = .COMPOUND_PRED
            · subst hc
              by_cases ho : op = .COMPOUND_OR
              · subst ho
                rcases ch with _ | ⟨l, _ | ⟨r, rest⟩⟩
                · rw [build_dispatch_compound_nil, build_dispatch_compound_nil]
                  simp
                · rw [build_dispatch_compound_one, build_dispatch_compound_one]
                  simp
                · have hls : sizeOf l < n := by
                    have hlt : sizeOf l <
                        sizeOf (Expr.mk .COMPOUND_PRED (l :: r :: rest)
                          .COMPOUND_OR t fn nin sids) := by
                      simp
                      omega
                    omega
                  have hrs : sizeOf r < n := by
                    have hrt : sizeOf r <
                        sizeOf (Expr.mk .COMPOUND_PRED (l :: r :: rest)
                          .COMPOUND_OR t fn nin sids) := by
                      simp
                      omega
                    omega
                  cases hbl : build_disjuncts_list ev td l [] with
                  | mk bl tl =>
                    have ihl := ih l hls
                    rw [hbl] at ihl
                    cases hbr : build_disjuncts_list ev td r [] with
                    | mk br tr =>
                      have ihr := ih r hrs
                      rw [hbr] at ihr
                      rw [build_dispatch_compound_or, build_dispatch_compound_or,
                        hbl, ihl ds]
                      cases bl
                      · simp
                      · simp [ihr]
              · rw [build_dispatch_compound_notor ev td ch op t fn nin sids ds ho,
                  build_dispatch_compound_notor ev td ch op t fn nin sids [] ho]
                simp
            · rw [build_dispatch_other ev td nt ch op t fn nin sids ds hb
                  (fun h => hfc h.1) hi hc,
                build_dispatch_other ev td nt ch op t fn nin sids [] hb
                  (fun h => hfc h.1) hi hc]
              simp

theorem build_prepend {V : Type} (ev : Expr → V) (td : TupleDescriptor)
    (e : Expr) (ds : List (ExtPredicate V)) :
    build_disjuncts_list ev td e ds =
      ((build_disjuncts_list ev td e []).1,
        ds ++ (build_disjuncts_list ev td e []).2) :=
  build_prepend_aux ev td (sizeOf e + 1) e (Nat.lt_succ_self _) ds

theorem build_extends {V : Type} (ev : Expr → V) (td : TupleDescriptor)
    (e : Expr) (ds : List (ExtPredicate V)) :
    ∃ tail, (build_disjuncts_list ev td e ds).2 = ds ++ tail := by
  rw [build_prepend]
  exact ⟨_, rfl⟩

theorem build_binary_fail_frame {V : Type} (ev : Expr → V) (td : TupleDescriptor)
    (ch : List Expr) (op : TExprOpcode) (ds : List (ExtPredicate V))
    (h : (build_binary_pred ev td ch op ds).1 = false) :
    (build_binary_pred ev td ch op ds).2 = ds := by
  rcases ch with _ | ⟨c0, _ | ⟨c1, _ | ⟨c2, rest⟩⟩⟩
  · simp [build_binary_pred]
  · simp [build_binary_pred]
  · by_cases h0 : c0.node_type = .SLOT_REF
    · cases hsd : get_slot_desc td c0 with
      | none => simp [build_binary_pred, h0, hsd]
      | some sd => simp [build_binary_pred, h0, hsd] at h
    · by_cases h1 : c1.node_type = .SLOT_REF
      · cases hsd : get_slot_desc td c1 with
        | none => simp [build_binary_pred, h0, h1, hsd]
        | some sd => simp [build_binary_pred, h0, h1, hsd] at h
      · simp [build_binary_pred, h0, h1]
  · simp [build_binary_pred]

theorem build_es_fail_frame {V : Type} (ev : Expr → V) (ch : List Expr)
    (fn : String) (ds : List (ExtPredicate V))
    (h : (build_es_func ev ch fn ds).1 = false) :
    (build_es_func ev ch fn ds).2 = ds := by
  rcases ch with _ | ⟨c0, _ | ⟨c1, rest⟩⟩
  · simp [build_es_func]
  · simp [build_es_func]
  · simp [build_es_func] at h

theorem build_in_fail_frame {V : Type} (ev : Expr → V) (td : TupleDescriptor)
    (ch : List Expr) (ds : List (ExtPredicate V))
    (h : (build_in_pred ev td ch ds).1 = false) :
    (build_in_pred ev td ch ds).2 = ds := by
  rcases ch with _ | ⟨c0, vs⟩
  · simp [build_in_pred]
  · by_cases h0 : type_without_cast c0 = .SLOT_REF
    · cases hsd : get_slot_desc td c0 with
      | none => simp [build_in_pred, h0, hsd]
      | some sd =>
        cases hcv : collect_in_values ev c0.typ vs with
        | none => simp [build_in_pred, h0, hsd, hcv]
        | some lits => simp [build_in_pred, h0, hsd, hcv] at h
    · simp [build_in_pred, h0]

/-- C1, counterexample: a binary comparison whose two children are BOTH
slot references does not fail — the translator takes the first child as the
slot, evaluates the second child as the operand, returns success and appends
one predicate, contradicting the claim that it returns failure and appends
nothing. -/
theorem claim_C1_counterexample :
    bothSlots.node_type = .BINARY_PRED ∧
    bothSlots.children.length = 2 ∧
    (∀ c ∈ bothSlots.children, c.node_type = .SLOT_REF) ∧
    build_disjuncts_list evHead tdAB bothSlots [] =
      (true, [.ExtBinaryPredicate .BINARY_PRED "a" ⟨.TYPE_INT⟩ .GT
        ⟨.SLOT_REF, 2⟩]) := by
  decide

/-- C1, amended: a two-child binary comparison fails when NEITHER child is a
slot reference; whenever the first child is a slot reference — including the
case where both children are — the translator proceeds with the first child
as the column and the second child as the operand. -/
theorem claim_C1 {V : Type} (ev : Expr → V) (td : TupleDescriptor)
    (c0 c1 : Expr) (op : TExprOpcode) (t : TypeDescriptor) (fn : String)
    (nin : Bool) (sids : List Nat) (sd : SlotDescriptor)
    (ds : List (ExtPredicate V)) :
    (c0.node_type ≠ .SLOT_REF → c1.node_type ≠ .SLOT_REF →
      build_disjuncts_list ev td (.mk .BINARY_PRED [c0, c1] op t fn nin sids) ds =
        (false, ds)) ∧
    (c0.node_type = .SLOT_REF → get_slot_desc td c0 = some sd →
      build_disjuncts_list ev td (.mk .BINARY_PRED [c0, c1] op t fn nin sids) ds =
        (true, ds ++ [.ExtBinaryPredicate .BINARY_PRED sd.col_name sd.typ op
          ⟨c1.node_type, ev c1⟩])) := by
  constructor
  · intro h0 h1
    rw [build_dispatch_binary]
    exact build_binary_noslot ev td c0 c1 op ds h0 h1
  · intro h0 hsd
    rw [build_dispatch_binary]
    exact build_binary_left ev td c0 c1 op sd ds h0 hsd

/-- C1, witness: the amended theorem applied to the both-slot-reference
comparison of the counterexample. -/
theorem claim_C1_witness :
    build_disjuncts_list evHead tdAB bothSlots [] =
      (true, [.ExtBinaryPredicate .BINARY_PRED "a" ⟨.TYPE_INT⟩ .GT
        ⟨.SLOT_REF, 2⟩]) := by
  have h := (claim_C1 evHead tdAB slotA slotS .GT ⟨.TYPE_BOOLEAN⟩ "" false []
      ⟨1, "a", ⟨.TYPE_INT⟩⟩ []).2 (by decide) (by decide)
  simpa [bothSlots, slotA, slotS, evHead] using h

/-- C2, code bug: translating `a NOT IN (3)` (is-not-in marker set) emits a
Membership predicate whose negation flag is `false`, because the source
fills the flag into a dead thrift local (lines 130-133) while the emitted
`ExtInPredicate` is built by the four-argument constructor that receives no
negation value. -/
theorem claim_C2 :
    notInExpr.is_not_in = true ∧
    build_disjuncts_list evHead tdAB notInExpr [] =
      (true, [.ExtInPredicate .IN_PRED false "a" ⟨.TYPE_INT⟩
        [⟨.INT_LITERAL, 3⟩]]) ∧
    (ExtPredicate.ExtInPredicate .IN_PRED false "a" ⟨.TYPE_INT⟩
      [(⟨.INT_LITERAL, 3⟩ : ExtLiteral Nat)]).negated = false := by
  decide

/-- C3, counterexample: a membership test whose first child is a slot
reference typed varchar while the slot DESCRIPTOR declares integer, with a
char-typed value child.  The declared slot type is not string-family and the
value tag differs from it, so the claim requires failure; the code compares
against the first child expression type (string family) and succeeds. -/
theorem claim_C3_counterexample :
    inMis.node_type = .IN_PRED ∧
    type_without_cast slotMis = .SLOT_REF ∧
    get_slot_desc tdAB slotMis = some ⟨1, "a", ⟨.TYPE_INT⟩⟩ ∧
    (TypeDescriptor.mk .TYPE_INT).is_string_type = false ∧
    charLit.typ.type ≠ PrimitiveType.TYPE_INT ∧
    (build_disjuncts_list evHead tdAB inMis []).1 = true := by
  decide

/-- C3, amended: the per-value type compatibility of the IN branch is
enforced against the type tag of the FIRST CHILD expression (the cast
target type when a cast is present), not against the declared type of the
resolved slot descriptor: string-family first-child type requires every
value child to be string-family, otherwise every value child tag must equal
the first-child tag, and any mismatch fails the whole call. -/
theorem claim_C3 {V : Type} (ev : Expr → V) (td : TupleDescriptor)
    (c0 : Expr) (vs : List Expr) (op : TExprOpcode) (t : TypeDescriptor)
    (fn : String) (nin : Bool) (sids : List Nat) (sd : SlotDescriptor)
    (ds : List (ExtPredicate V))
    (h0 : type_without_cast c0 = .SLOT_REF)
    (hsd : get_slot_desc td c0 = some sd) :
    (in_values_compat c0.typ vs = true →
      build_disjuncts_list ev td (.mk .IN_PRED (c0 :: vs) op t fn nin sids) ds =
        (true, ds ++ [mkExtInPredicate V .IN_PRED sd.col_name sd.typ
          (vs.map fun v => ⟨v.node_type, ev v⟩)])) ∧
    (in_values_compat c0.typ vs = false →
      build_disjuncts_list ev td (.mk .IN_PRED (c0 :: vs) op t fn nin sids) ds =
        (false, ds)) := by
  constructor <;> intro hcomp <;> rw [build_dispatch_in] <;>
    rw [build_in_branch ev td c0 vs sd ds h0 hsd] <;>
    simp [collect_in_values_eq, hcomp]

/-- C3, witness: the amended theorem applied to `s IN (char literal)`, a
string-family slot with a value of a different string-family subtype, which
succeeds. -/
theorem claim_C3_witness :
    build_disjuncts_list evHead tdAB inStr [] =
      (true, [mkExtInPredicate Nat .IN_PRED "s" ⟨.TYPE_VARCHAR⟩
        [⟨.STRING_LITERAL, 7⟩]]) := by
  have h := (claim_C3 evHead tdAB slotS [charLit] .INVALID_OPCODE
      ⟨.TYPE_BOOLEAN⟩ "" false [] ⟨2, "s", ⟨.TYPE_VARCHAR⟩⟩ []
      (by decide) (by decide)).1 (by decide)
  simpa [inStr, slotS, charLit, evHead] using h

/-- C4: a two-child binary comparison with exactly one slot-reference child
whose slot resolves succeeds and appends exactly one Comparison predicate
carrying the slot column name, the slot type, the evaluated operand and the
source opcode verbatim; the opcode is the same whether the slot is the
first or the second child. -/
theorem claim_C4 {V : Type} (ev : Expr → V) (td : TupleDescriptor)
    (c0 c1 : Expr) (op : TExprOpcode) (t : TypeDescriptor) (fn : String)
    (nin : Bool) (sids : List Nat) (sd : SlotDescriptor)
    (ds : List (ExtPredicate V)) :
    (c0.node_type = .SLOT_REF → c1.node_type ≠ .SLOT_REF →
      get_slot_desc td c0 = some sd →
      build_disjuncts_list ev td (.mk .BINARY_PRED [c0, c1] op t fn nin sids) ds =
        (true, ds ++ [.ExtBinaryPredicate .BINARY_PRED sd.col_name sd.typ op
          ⟨c1.node_type, ev c1⟩])) ∧
    (c0.node_type ≠ .SLOT_REF → c1.node_type = .SLOT_REF →
      get_slot_desc td c1 = some sd →
      build_disjuncts_list ev td (.mk .BINARY_PRED [c0, c1] op t fn nin sids) ds =
        (true, ds ++ [.ExtBinaryPredicate .BINARY_PRED sd.col_name sd.typ op
          ⟨c0.node_type, ev c0⟩])) := by
  constructor
  · intro h0 h1 hsd
    rw [build_dispatch_binary]
    exact build_binary_left ev td c0 c1 op sd ds h0 hsd
  · intro h0 h1 hsd
    rw [build_dispatch_binary]
    exact build_binary_right ev td c0 c1 op sd ds h0 h1 hsd

/-- C4, witness: the comparison `5 > a` with the slot as the SECOND child
still carries the `GT` opcode verbatim. -/
theorem claim_C4_witness :
    build_disjuncts_list evHead tdAB binRev [] =
      (true, [.ExtBinaryPredicate .BINARY_PRED "a" ⟨.TYPE_INT⟩ .GT
        ⟨.INT_LITERAL, 5⟩]) := by
  have h := (claim_C4 evHead tdAB (intLit 5) slotA .GT ⟨.TYPE_BOOLEAN⟩ ""
      false [] ⟨1, "a", ⟨.TYPE_INT⟩⟩ []).2 (by decide) (by decide) (by decide)
  simpa [binRev, slotA, intLit, evHead] using h

/-- C5: the predicates of a compound OR appear in left-to-right depth-first
order — when both branches translate, the output appends the left-branch
predicates then the right-branch predicates, in that order, after the
incoming sequence. -/
theorem claim_C5 {V : Type} (ev : Expr → V) (td : TupleDescriptor)
    (l r : Expr) (rest : List Expr) (t : TypeDescriptor) (fn : String)
    (nin : Bool) (sids : List Nat) (ds tl tr : List (ExtPredicate V))
    (hl : build_disjuncts_list ev td l [] = (true, tl))
    (hr : build_disjuncts_list ev td r [] = (true, tr)) :
    build_disjuncts_list ev td
        (.mk .COMPOUND_PRED (l :: r :: rest) .COMPOUND_OR t fn nin sids) ds =
      (true, ds ++ (tl ++ tr)) := by
  rw [build_dispatch_compound_or, build_prepend ev td l ds, hl]
  show build_disjuncts_list ev td r (ds ++ tl) = (true, ds ++ (tl ++ tr))
  rw [build_prepend ev td r (ds ++ tl), hr]
  simp

/-- C5, witness: `a > 5 OR a < 1` translates to exactly the two-element list
with the `a > 5` predicate first. -/
theorem claim_C5_witness :
    build_disjuncts_list evHead tdAB orExpr [] = (true, [pGT, pLT]) := by
  have h := claim_C5 evHead tdAB binGT binLT [] ⟨.TYPE_BOOLEAN⟩ "" false []
      [] [pGT] [pLT] (by decide) (by decide)
  simpa [orExpr] using h

/-- C6: a compound OR succeeds iff the left recursion and then the right
recursion (on the state the left produced) both succeed; when the left
succeeds and the right fails, the call returns failure and the left-branch
predicates remain as a prefix of the output sequence — no rollback. -/
theorem claim_C6 {V : Type} (ev : Expr → V) (td : TupleDescriptor)
    (l r : Expr) (rest : List Expr) (t : TypeDescriptor) (fn : String)
    (nin : Bool) (sids : List Nat) (ds : List (ExtPredicate V)) :
    ((build_disjuncts_list ev td
        (.mk .COMPOUND_PRED (l :: r :: rest) .COMPOUND_OR t fn nin sids) ds).1 = true ↔
      ((build_disjuncts_list ev td l ds).1 = true ∧
        (build_disjuncts_list ev td r
          (build_disjuncts_list ev td l ds).2).1 = true)) ∧
    (∀ dl, build_disjuncts_list ev td l ds = (true, dl) →
      (build_disjuncts_list ev td r dl).1 = false →
      (build_disjuncts_list ev td
        (.mk .COMPOUND_PRED (l :: r :: rest) .COMPOUND_OR t fn nin sids) ds).1 = false ∧
      ∃ tail, (build_disjuncts_list ev td
        (.mk .COMPOUND_PRED (l :: r :: rest) .COMPOUND_OR t fn nin sids) ds).2 =
          dl ++ tail) := by
  constructor
  · rw [build_dispatch_compound_or]
    cases hbl : build_disjuncts_list ev td l ds with
    | mk bl dl =>
      cases bl
      · simp
      · simp
  · intro dl h1 h2
    rw [build_dispatch_compound_or, h1]
    exact ⟨h2, build_extends ev td r dl⟩

/-- C6, witness: `(a > 5) OR (bare literal)` fails overall while the
predicate appended for the left branch stays in the output sequence. -/
theorem claim_C6_witness :
    (build_disjuncts_list evHead tdAB orBad []).1 = false ∧
    ∃ tail, (build_disjuncts_list evHead tdAB orBad []).2 = [pGT] ++ tail := by
  have h := (claim_C6 evHead tdAB binGT (intLit 9) [] ⟨.TYPE_BOOLEAN⟩ ""
      false [] []).2 [pGT] (by decide) (by decide)
  simpa [orBad] using h

/-- C7: a compound node whose opcode is not logical OR fails and leaves the
output sequence untouched. -/
theorem claim_C7 {V : Type} (ev : Expr → V) (td : TupleDescriptor)
    (nt : TExprNodeType) (ch : List Expr) (op : TExprOpcode)
    (t : TypeDescriptor) (fn : String) (nin : Bool) (sids : List Nat)
    (ds : List (ExtPredicate V))
    (h1 : nt = .COMPOUND_PRED) (h2 : op ≠ .COMPOUND_OR) :
    build_disjuncts_list ev td (.mk nt ch op t fn nin sids) ds = (false, ds) := by
  subst h1
  exact build_dispatch_compound_notor ev td ch op t fn nin sids ds h2

/-- C7, witness: `a > 5 AND a < 1` is rejected with nothing appended. -/
theorem claim_C7_witness :
    build_disjuncts_list evHead tdAB andExpr [] = (false, []) := by
  have h := claim_C7 evHead tdAB .COMPOUND_PRED [binGT, binLT] .COMPOUND_AND
      ⟨.TYPE_BOOLEAN⟩ "" false [] [] rfl (by decide)
  simpa [andExpr] using h

/-- C8: in the binary branch, once exactly one child is a slot reference and
the slot resolves, translation succeeds for every combination of slot type
and operand expression type — no cross-type compatibility check — and one
Comparison predicate is appended. -/
theorem claim_C8 {V : Type} (ev : Expr → V) (td : TupleDescriptor)
    (c0 c1 : Expr) (op : TExprOpcode) (t : TypeDescriptor) (fn : String)
    (nin : Bool) (sids : List Nat) (sd : SlotDescriptor)
    (ds : List (ExtPredicate V))
    (h : (c0.node_type = .SLOT_REF ∧ c1.node_type ≠ .SLOT_REF ∧
            get_slot_desc td c0 = some sd) ∨
         (c0.node_type ≠ .SLOT_REF ∧ c1.node_type = .SLOT_REF ∧
            get_slot_desc td c1 = some sd)) :
    (build_disjuncts_list ev td (.mk .BINARY_PRED [c0, c1] op t fn nin sids) ds).1 = true ∧
    ∃ lit : ExtLiteral V,
      (build_disjuncts_list ev td (.mk .BINARY_PRED [c0, c1] op t fn nin sids) ds).2 =
        ds ++ [.ExtBinaryPredicate .BINARY_PRED sd.col_name sd.typ op lit] := by
  rcases h with ⟨h0, h1, hsd⟩ | ⟨h0, h1, hsd⟩
  · rw [build_dispatch_binary, build_binary_left ev td c0 c1 op sd ds h0 hsd]
    exact ⟨rfl, ⟨_, rfl⟩⟩
  · rw [build_dispatch_binary, build_binary_right ev td c0 c1 op sd ds h0 h1 hsd]
    exact ⟨rfl, ⟨_, rfl⟩⟩

/-- C8, witness: comparing the varchar column `s` with an integer literal
succeeds even though the types disagree. -/
theorem claim_C8_witness :
    (build_disjuncts_list evHead tdAB binMix []).1 = true := by
  have h := claim_C8 evHead tdAB slotS (intLit 5) .EQ ⟨.TYPE_BOOLEAN⟩ ""
      false [] ⟨2, "s", ⟨.TYPE_VARCHAR⟩⟩ []
      (Or.inl ⟨by decide, by decide, by decide⟩)
  simpa [binMix, slotS, intLit] using h.1

/-- C9: a node passes `is_match_func` iff it is a function call named
exactly "esquery"; on a match with a second child present, translation
performs no further validation and emits one FunctionPredicate carrying the
function name, an empty column list and the evaluated second child as the
single literal. -/
theorem claim_C9 {V : Type} (ev : Expr → V) (td : TupleDescriptor) :
    (∀ e : Expr, is_match_func e = true ↔
      (e.node_type = .FUNCTION_CALL ∧ e.fn_name = "esquery")) ∧
    (∀ (nt : TExprNodeType) (ch : List Expr) (op : TExprOpcode)
        (t : TypeDescriptor) (fn : String) (nin : Bool) (sids : List Nat)
        (c0 c1 : Expr) (rest : List Expr) (ds : List (ExtPredicate V)),
      is_match_func (.mk nt ch op t fn nin sids) = true →
      ch = c0 :: c1 :: rest →
      build_disjuncts_list ev td (.mk nt ch op t fn nin sids) ds =
        (true, ds ++ [.ExtFunction .FUNCTION_CALL fn []
          [⟨c1.node_type, ev c1⟩]])) := by
  constructor
  · intro e
    simp [is_match_func]
  · intro nt ch op t fn nin sids c0 c1 rest ds hm hch
    simp only [is_match_func, Expr.node_type_mk, Expr.fn_name_mk,
      decide_eq_true_eq] at hm
    obtain ⟨hnt, hfn⟩ := hm
    subst hnt
    subst hfn
    subst hch
    rw [build_dispatch_func]
    simp [build_es_func]

/-- C9, witness: `esquery(a, json)` emits one FunctionPredicate holding the
evaluated second argument. -/
theorem claim_C9_witness :
    build_disjuncts_list evHead tdAB esqExpr [] =
      (true, [.ExtFunction .FUNCTION_CALL "esquery" []
        [⟨.STRING_LITERAL, 9⟩]]) := by
  have h := (claim_C9 evHead tdAB).2 .FUNCTION_CALL [slotA, strLitV]
      .INVALID_OPCODE ⟨.TYPE_BOOLEAN⟩ "esquery" false [] slotA strLitV [] []
      (by decide) rfl
  simpa [esqExpr, strLitV, evHead] using h

/-- C10: a failing non-compound node leaves the caller-supplied output
sequence exactly as it was — every failing non-compound branch returns
before any append. -/
theorem claim_C10 {V : Type} (ev : Expr → V) (td : TupleDescriptor)
    (e : Expr) (ds : List (ExtPredicate V))
    (h1 : e.node_type ≠ .COMPOUND_PRED)
    (h2 : (build_disjuncts_list ev td e ds).1 = false) :
    (build_disjuncts_list ev td e ds).2 = ds := by
  cases e with
  | mk nt ch op t fn nin sids =>
    simp only [Expr.node_type_mk] at h1
    by_cases hb : nt = .BINARY_PRED
    · subst hb
      rw [build_dispatch_binary] at h2 ⊢
      exact build_binary_fail_frame ev td ch op ds h2
    · by_cases hfc : nt = .FUNCTION_CALL
      · subst hfc
        rw [build_dispatch_func] at h2 ⊢
        by_cases hf : fn = "esquery"
        · rw [if_pos hf] at h2 ⊢
          exact build_es_fail_frame ev ch fn ds h2
        · rw [if_neg hf]
      · by_cases hi : nt = .IN_PRED
        · subst hi
          rw [build_dispatch_in] at h2 ⊢
          exact build_in_fail_frame ev td ch ds h2
        · rw [build_dispatch_other ev td nt ch op t fn nin sids ds hb
            (fun hx => hfc hx.1) hi h1]

/-- C10, witness: a bare literal conjunct fails and a nonempty incoming
sequence comes back unchanged. -/
theorem claim_C10_witness :
    (build_disjuncts_list evHead tdAB (intLit 9) [pGT]).2 = [pGT] :=
  claim_C10 evHead tdAB (intLit 9) [pGT] (by decide) (by decide)
